import Mathlib

/-!
# User routes of the voting backend

A shallow embedding of `src/Routes/userRoutes.js`: the four handlers mounted
under `/user` (`POST /signup`, `POST /login`, `GET /profile`,
`PUT /profile/password`) as pure functions from a user collection and a
request to the collection afterwards and the response sent.

Modelling decisions, all visible in the definitions below:

* The `users` collection is a list of documents in insertion order.  The
  routes never delete, so a document keeps its position for ever and the
  position serves as the database-assigned `_id` (unique by construction).
* `express.json()` hands the handlers parsed JSON.  The `aadharCardNumber` of a
  signup body, which the handler itself coerces with `String(v)` inside
  `RegExp.test`, is any JSON value (`JsValue`): the coercion is embedded with its
  results on arrays and objects, the `TypeError` it can throw included.  The
  other fields, which the handlers only compare with `===`, test for truthiness
  or hand to the model layer, are a string or absent (`none`, the JavaScript
  `undefined`).
* `models/user.js` (schema, pre-save hashing hook, `comparePassword`) and
  `jwt.js` (`generateToken`, `jwtAuthMiddleware`) are not among the sources.
  The hash, the comparison and the token generator are parameters (`Model`);
  a protected handler receives the identity the middleware attached to the
  request.
* The `catch` branch of signup (status 500) is taken when the coercion throws
  and when the model layer refuses to cast the ID number.  The lookups and
  writes themselves are total functions on the list, so the other `catch`
  branches are never taken.
-/

namespace VotingBackend

/-! ## Data model -/

mutual
/-- A value of a parsed JSON body, or the JavaScript `undefined` of an absent field.
A number is integer-valued; fractions and exponents are not represented. -/
inductive JsValue where
  | undefined
  | null
  | bool (b : Bool)
  | num (n : Int)
  | str (s : String)
  | arr (items : JsList)
  | obj (fields : JsFields)
/-- The elements of a JSON array, in order. -/
inductive JsList where
  | nil
  | cons (head : JsValue) (tail : JsList)
/-- The own properties of a JSON object, in order. -/
inductive JsFields where
  | nil
  | cons (key : String) (value : JsValue) (tail : JsFields)
end

/-- The fields of a user as kept in a stored document. -/
structure UserData where
  aadharCardNumber : Option String
  password : Option String
  role : Option String
  others : List (String × String)
deriving DecidableEq, Repr

/-- The body of `POST /signup`, the `userData` of the handler. -/
structure SignupBody where
  aadharCardNumber : JsValue
  password : Option String
  role : Option String
  others : List (String × String)

/-- The `users` collection, oldest document first. -/
abbrev Store := List UserData

/-- A document as handed out by the model layer: its `id` and its fields. -/
structure User where
  id : Nat
  data : UserData
deriving DecidableEq, Repr

/-- The object passed to `generateToken`: `{ id: ... }`. -/
structure Payload where
  id : Nat
deriving DecidableEq, Repr

/-- The functions the handlers import from `models/user.js` and `jwt.js`, taken as
parameters: the password hash applied before storage, the comparison behind
`comparePassword` (candidate first, stored value second), `generateToken`, and whether
the schema accepts an ID number that is not a string (see `castAadhar`). -/
structure Model where
  hash : String → String
  compare : String → String → Bool
  generateToken : Payload → String
  castsAadhar : JsValue → Bool

/-- The body of `POST /login`. -/
structure LoginBody where
  aadharCardNumber : Option String
  password : Option String
deriving DecidableEq, Repr

/-- The body of `PUT /profile/password`. -/
structure PasswordBody where
  currentPassword : Option String
  newPassword : Option String
deriving DecidableEq, Repr

/-- The JSON object given to `res.json`. -/
inductive ResBody where
  | error (error : String)
  | userToken (user : User) (token : String)
  | token (token : String)
  | user (user : Option User)
  | message (message : String)
deriving DecidableEq, Repr

/-- An HTTP response: status code and JSON body. -/
structure Response where
  status : Nat
  body : ResBody
deriving DecidableEq, Repr

/-! ## JavaScript coercions used by the handlers -/

/-- A string-or-absent field seen as a JSON value. -/
def JsValue.ofField : Option String → JsValue
  | none => .undefined
  | some s => .str s

/-- Whether the object has an own property of that name. -/
def JsFields.hasKey (k : String) : JsFields → Bool
  | .nil => false
  | .cons key _ tail => key == k || JsFields.hasKey k tail

/-- The text `Array.prototype.join` uses for an element whose string form is `s`:
`undefined` and `null` give the empty string. -/
def elementString (v : JsValue) (s : Option String) : Option String :=
  match v with
  | .undefined => some ""
  | .null => some ""
  | _ => s

mutual
/-- The coercion `String(v)` that `RegExp.prototype.test` applies to its argument;
`none` is a thrown `TypeError`.  An array is joined with commas.  An object parsed from
JSON has no callable own property: without an own `toString` it inherits the one
printing `[object Object]`, with one neither it nor `valueOf` yields a primitive. -/
def toJsString : JsValue → Option String
  | .undefined => some "undefined"
  | .null => some "null"
  | .bool b => some (if b then "true" else "false")
  | .num n => some (toString n)
  | .str s => some s
  | .arr items => joinItems items
  | .obj fields => if fields.hasKey "toString" then none else some "[object Object]"
/-- The result of `Array.prototype.join` with the default separator. -/
def joinItems : JsList → Option String
  | .nil => some ""
  | .cons head .nil => elementString head (toJsString head)
  | .cons head (.cons next rest) =>
    match elementString head (toJsString head), joinItems (.cons next rest) with
    | some a, some b => some (a ++ "," ++ b)
    | _, _ => none
end

/-- Truthiness of a field value: `undefined` and the empty string are falsy. -/
def truthy : Option String → Bool
  | none => false
  | some s => s != ""

/-- Matching of `\d{n}$` at the current position: `n` characters of `0`-`9`, then end of input. -/
def digitsThenEnd : Nat → List Char → Bool
  | 0, [] => true
  | 0, _ :: _ => false
  | _ + 1, [] => false
  | n + 1, c :: cs => c.isDigit && digitsThenEnd n cs

/-- The test `/^\d{12}$/.test(v)` of the signup handler; `none` when the coercion throws. -/
def aadharRegexTest (v : JsValue) : Option Bool :=
  (toJsString v).map fun s => digitsThenEnd 12 s.toList

/-! ## Model layer -/

/-- Scan of `findOne` from position `i` on. -/
def findOneFrom (q : UserData → Bool) : List UserData → Nat → Option User
  | [], _ => none
  | d :: ds, i => if q d then some ⟨i, d⟩ else findOneFrom q ds (i + 1)

/-- The lookup `User.findOne(query)`: the first stored document satisfying the query. -/
def findOne (q : UserData → Bool) (store : Store) : Option User :=
  findOneFrom q store 0

/-- The lookup `User.findById(id)`. -/
def findById (store : Store) (id : Nat) : Option User :=
  store[id]?.map fun d => ⟨id, d⟩

/-- Modelled from the spec: the schema of `models/user.js` is missing.
The cast the model layer applies to the ID number of a query or a new document; `none`
is a thrown cast error.  A string is taken as sent.  Another value is refused or, as the
ID number is a string of digits, taken in its string form. -/
def castAadhar (M : Model) (v : JsValue) : Option String :=
  match v with
  | .str s => some s
  | v => if M.castsAadhar v then toJsString v else none

/-- Modelled from the spec: the schema and the pre-save hook of `models/user.js` are missing.
The document `new User(userData)` as its first `save()` writes it: the fields of the
body, the ID number as cast, the password hashed by the model layer before storage. -/
def newUser (M : Model) (userData : SignupBody) (aadhar : String) : UserData :=
  { aadharCardNumber := some aadhar
    password := userData.password.map M.hash
    role := userData.role
    others := userData.others }

/-- The first `save()` of a new document: it is appended and receives the next `id`. -/
def saveNew (store : Store) (d : UserData) : Store × User :=
  (store ++ [d], ⟨store.length, d⟩)

/-- Modelled from the spec: the pre-save hook of `models/user.js` is missing.
The `save()` of a fetched document whose password field was overwritten: the document
with that `id` is rewritten, the new password re-hashed by the model layer. -/
def savePassword (M : Model) (store : Store) (user : User) (password : String) : Store :=
  store.set user.id { user.data with password := some (M.hash password) }

/-- Modelled from the spec: the method `comparePassword` of `models/user.js` is missing.
The call `user.comparePassword(candidate)` compares the candidate with the stored hash;
a document without a password matches nothing. -/
def comparePassword (M : Model) (user : User) (candidate : String) : Bool :=
  match user.data.password with
  | some stored => M.compare candidate stored
  | none => false

/-! ## Handlers -/

/-- The handler `router.post('/signup')`.  The `TypeError` of the coercion at the format
check and the cast error of the model layer are caught and answered 500. -/
def signup (M : Model) (store : Store) (userData : SignupBody) : Store × Response :=
  if userData.role == some "admin" && (findOne (fun d => d.role == some "admin") store).isSome then
    (store, ⟨400, .error "Admin user already exists"⟩)
  else
    match aadharRegexTest userData.aadharCardNumber with
    | none => (store, ⟨500, .error "Internal Server Error"⟩)
    | some false => (store, ⟨400, .error "Aadhar Card Number must be exactly 12 digits"⟩)
    | some true =>
      match castAadhar M userData.aadharCardNumber with
      | none => (store, ⟨500, .error "Internal Server Error"⟩)
      | some aadhar =>
        if (findOne (fun d => d.aadharCardNumber == some aadhar) store).isSome then
          (store, ⟨400, .error "User with the same Aadhar Card Number already exists"⟩)
        else
          let saved := saveNew store (newUser M userData aadhar)
          let token := M.generateToken ⟨saved.2.id⟩
          (saved.1, ⟨200, .userToken saved.2 token⟩)

/-- The handler `router.post('/login')`.  Past the first guard both fields are non-empty
strings. -/
def login (M : Model) (store : Store) (body : LoginBody) : Store × Response :=
  if !truthy body.aadharCardNumber || !truthy body.password then
    (store, ⟨400, .error "Aadhar Card Number and password are required"⟩)
  else
    match findOne (fun d => d.aadharCardNumber == body.aadharCardNumber) store with
    | none => (store, ⟨401, .error "Invalid Aadhar Card Number or Password"⟩)
    | some user =>
      if !comparePassword M user (body.password.getD "") then
        (store, ⟨401, .error "Invalid Aadhar Card Number or Password"⟩)
      else
        (store, ⟨200, .token (M.generateToken ⟨user.id⟩)⟩)

/-- The handler `router.get('/profile')`, run for the identity `userId` set by the middleware. -/
def profile (store : Store) (userId : Nat) : Store × Response :=
  (store, ⟨200, .user (findById store userId)⟩)

/-- The handler `router.put('/profile/password')`, run for the identity `userId`.  Past
the first guard both fields are non-empty strings. -/
def profilePassword (M : Model) (store : Store) (userId : Nat) (body : PasswordBody) :
    Store × Response :=
  if !truthy body.currentPassword || !truthy body.newPassword then
    (store, ⟨400, .error "Both currentPassword and newPassword are required"⟩)
  else
    match findById store userId with
    | none => (store, ⟨401, .error "Invalid current password"⟩)
    | some user =>
      if !comparePassword M user (body.currentPassword.getD "") then
        (store, ⟨401, .error "Invalid current password"⟩)
      else
        (savePassword M store user (body.newPassword.getD ""),
          ⟨200, .message "Password updated"⟩)

/-! ## Request sequences -/

/-- A request reaching one of the four handlers. -/
inductive Request where
  | signup (userData : SignupBody)
  | login (body : LoginBody)
  | profile (userId : Nat)
  | profilePassword (userId : Nat) (body : PasswordBody)

/-- Dispatch of one request to its handler. -/
def handle (M : Model) (store : Store) : Request → Store × Response
  | .signup userData => signup M store userData
  | .login body => login M store body
  | .profile userId => profile store userId
  | .profilePassword userId body => profilePassword M store userId body

/-- The collection after the requests were served one after the other. -/
def serve (M : Model) (store : Store) : List Request → Store
  | [] => store
  | r :: rs => serve M (handle M store r).1 rs

/-! ## Vocabulary of the specification -/

/-- A string of exactly 12 decimal digits. -/
def IsTwelveDigits (s : String) : Prop :=
  s.length = 12 ∧ ∀ c ∈ s.toList, c.isDigit = true

/-- The ID number of a document is present and is exactly 12 decimal digits. -/
def WellFormedAadhar (v : Option String) : Prop :=
  ∃ s, v = some s ∧ IsTwelveDigits s

/-- The ID number of a signup body is a string of exactly 12 decimal digits. -/
def WellFormedAadharValue (v : JsValue) : Prop :=
  ∃ s, v = .str s ∧ IsTwelveDigits s

/-- The document holds the admin role. -/
def IsAdmin (d : UserData) : Prop :=
  d.role = some "admin"

/-- The stored password of the document matches the plaintext under `comparePassword`. -/
def PasswordMatches (M : Model) (d : UserData) (p : String) : Prop :=
  ∃ stored, d.password = some stored ∧ M.compare p stored = true

/-- The field is missing or empty. -/
def MissingOrEmpty (v : Option String) : Prop :=
  v = none ∨ v = some ""

/-- At most one stored user holds the admin role. -/
def AtMostOneAdmin (store : Store) : Prop :=
  ∀ (i j : Nat) (d e : UserData),
    store[i]? = some d → store[j]? = some e → IsAdmin d → IsAdmin e → i = j

/-- No two stored users share an ID number. -/
def UniqueAadhar (store : Store) : Prop :=
  ∀ (i j : Nat) (d e : UserData),
    store[i]? = some d → store[j]? = some e → d.aadharCardNumber = e.aadharCardNumber → i = j

/-- Every stored ID number is exactly 12 decimal digits. -/
def AllWellFormed (store : Store) : Prop :=
  ∀ d ∈ store, WellFormedAadhar d.aadharCardNumber

/-! ## Sample data for evaluating the handlers -/

/-- A model layer used to evaluate the handlers on concrete inputs: the hash puts `#` in
front of the plaintext, the comparison hashes the candidate and compares. -/
def demoModel : Model where
  hash p := "#" ++ p
  compare candidate stored := stored == "#" ++ candidate
  generateToken payload := "token-" ++ toString payload.id
  castsAadhar v := match v with
    | .num _ => true
    | _ => false

/-- A stored admin; the stored password is the hash of `admin-pw` under `demoModel`. -/
def sampleAdmin : UserData :=
  ⟨some "111122223333", some "#admin-pw", some "admin", [("name", "Asha")]⟩

/-- A stored voter; the stored password is the hash of `voter-pw` under `demoModel`. -/
def sampleVoter : UserData :=
  ⟨some "444455556666", some "#voter-pw", some "voter", [("name", "Ravi")]⟩

/-- A collection with one admin and one voter. -/
def sampleStore : Store := [sampleAdmin, sampleVoter]

/-- Two users stored under the same ID number, with different passwords. -/
def duplicateStore : Store :=
  [⟨some "444455556666", some "#first-pw", some "voter", []⟩,
   ⟨some "444455556666", some "#second-pw", some "voter", []⟩]

/-- A user stored with the empty string as ID number. -/
def emptyAadharStore : Store :=
  [⟨some "", some "#old-pw", some "voter", []⟩]

/-- Two signups asking for the admin role, two signups with the same ID number, a login,
a password change and a profile read. -/
def sampleRequests : List Request :=
  [.signup ⟨.str "111122223333", some "admin-pw", some "admin", []⟩,
   .signup ⟨.str "777788889999", some "other-pw", some "admin", []⟩,
   .signup ⟨.str "444455556666", some "voter-pw", some "voter", []⟩,
   .signup ⟨.str "444455556666", some "again-pw", some "voter", []⟩,
   .login ⟨some "111122223333", some "admin-pw"⟩,
   .profilePassword 0 ⟨some "admin-pw", some "new-pw"⟩,
   .profile 1]

/-- The signup body `{"aadharCardNumber": {"toString": 1}, "role": "voter"}`. -/
def objectAadharBody : SignupBody :=
  ⟨.obj (.cons "toString" (.num 1) .nil), none, some "voter", []⟩

/-- The signup body `{"aadharCardNumber": ["123456789012"], "password": "pw", "role": "voter"}`. -/
def arrayAadharBody : SignupBody :=
  ⟨.arr (.cons (.str "123456789012") .nil), some "pw", some "voter", []⟩

/-! ## Lemmas on the coercions and the lookups -/

theorem digitsThenEnd_iff (n : Nat) (cs : List Char) :
    digitsThenEnd n cs = true ↔ cs.length = n ∧ ∀ c ∈ cs, c.isDigit = true := by
  induction n generalizing cs with
  | zero => cases cs <;> simp [digitsThenEnd]
  | succ n ih => cases cs <;> simp [digitsThenEnd, ih, and_assoc, and_left_comm]

theorem digitsThenEnd_twelve_iff (s : String) :
    digitsThenEnd 12 s.toList = true ↔ IsTwelveDigits s := by
  unfold IsTwelveDigits
  rw [digitsThenEnd_iff]
  exact Iff.rfl

theorem aadharRegexTest_str (s : String) :
    aadharRegexTest (.str s) = some (digitsThenEnd 12 s.toList) := rfl

theorem aadharRegexTest_str_true (s : String) (h : IsTwelveDigits s) :
    aadharRegexTest (.str s) = some true := by
  rw [aadharRegexTest_str, (digitsThenEnd_twelve_iff s).2 h]

/-- A value that passes the format check has a string form of exactly 12 digits. -/
theorem aadharRegexTest_true (v : JsValue) (h : aadharRegexTest v = some true) :
    ∃ t, toJsString v = some t ∧ IsTwelveDigits t := by
  unfold aadharRegexTest at h
  cases ht : toJsString v with
  | none => simp [ht] at h
  | some t =>
    rw [ht] at h
    simp only [Option.map_some', Option.some.injEq] at h
    exact ⟨t, rfl, (digitsThenEnd_twelve_iff t).1 h⟩

/-- The cast of the model layer, when it succeeds, yields the string form of the value. -/
theorem castAadhar_eq (M : Model) (v : JsValue) (a : String) (h : castAadhar M v = some a) :
    toJsString v = some a := by
  cases v <;> simp only [castAadhar] at h <;>
    first
      | (simp only [Option.some.injEq] at h; subst h; rfl)
      | (split at h
         · exact h
         · cases h)

theorem not_wellFormedValue_of_test (v : JsValue) (h : aadharRegexTest v = some false) :
    ¬ WellFormedAadharValue v := by
  rintro ⟨s, hs, h12⟩
  rw [hs, aadharRegexTest_str_true s h12] at h
  cases h

theorem wellFormedValue_of_test (s : String) (h : digitsThenEnd 12 s.toList = true) :
    WellFormedAadharValue (.str s) :=
  ⟨s, rfl, (digitsThenEnd_twelve_iff s).1 h⟩

theorem truthy_eq_false_iff (v : Option String) : truthy v = false ↔ MissingOrEmpty v := by
  cases v <;> simp [truthy, MissingOrEmpty]

theorem truthy_some (s : String) : truthy (some s) = true ↔ s ≠ "" := by
  simp [truthy]

theorem findOneFrom_eq_none_iff (q : UserData → Bool) (l : List UserData) (i : Nat) :
    findOneFrom q l i = none ↔ ∀ d ∈ l, q d = false := by
  induction l generalizing i with
  | nil => simp [findOneFrom]
  | cons d ds ih =>
    by_cases hq : q d = true
    · simp [findOneFrom, hq]
    · simp [findOneFrom, hq, ih]

theorem findOneFrom_eq_some (q : UserData → Bool) (l : List UserData) (i : Nat) (u : User)
    (h : findOneFrom q l i = some u) :
    ∃ k, u.id = i + k ∧ l[k]? = some u.data ∧ q u.data = true ∧
      ∀ (j : Nat) (e : UserData), j < k → l[j]? = some e → q e = false := by
  induction l generalizing i with
  | nil => simp [findOneFrom] at h
  | cons d ds ih =>
    by_cases hq : q d = true
    · simp only [findOneFrom, hq, if_true, Option.some.injEq] at h
      subst h
      exact ⟨0, rfl, by simp, hq, fun j e hj => absurd hj (Nat.not_lt_zero j)⟩
    · simp only [findOneFrom, hq] at h
      obtain ⟨k, hid, hk, hqu, hlt⟩ := ih (i + 1) h
      refine ⟨k + 1, by omega, by simpa using hk, hqu, ?_⟩
      intro j e hj hje
      cases j with
      | zero =>
        simp only [List.getElem?_cons_zero, Option.some.injEq] at hje
        subst hje
        simpa using hq
      | succ j => exact hlt j e (by omega) (by simpa using hje)

theorem findOne_isSome_iff (q : UserData → Bool) (store : Store) :
    (findOne q store).isSome = true ↔ ∃ d ∈ store, q d = true := by
  rw [← Option.ne_none_iff_isSome, Ne, findOne, findOneFrom_eq_none_iff]
  simp

/-- When exactly one position holds a document satisfying the query, `findOne` returns it. -/
theorem findOne_of_unique (q : UserData → Bool) (store : Store) (i : Nat) (d : UserData)
    (hi : store[i]? = some d) (hq : q d = true)
    (huniq : ∀ (j : Nat) (e : UserData), store[j]? = some e → q e = true → j = i) :
    findOne q store = some ⟨i, d⟩ := by
  cases hf : findOne q store with
  | none =>
    rw [findOne, findOneFrom_eq_none_iff] at hf
    have := hf d (List.getElem?_mem hi)
    simp [hq] at this
  | some u =>
    obtain ⟨k, hid, hk, hqu, _⟩ := findOneFrom_eq_some q store 0 u hf
    have hki : k = i := huniq k u.data hk hqu
    subst hki
    rw [hi] at hk
    cases u
    simp_all

theorem comparePassword_iff (M : Model) (u : User) (p : String) :
    comparePassword M u p = true ↔ PasswordMatches M u.data p := by
  unfold comparePassword PasswordMatches
  cases u.data.password <;> simp

/-! ## Signup -/

theorem signup_admin_exists (M : Model) (store : Store) (userData : SignupBody)
    (h : (userData.role == some "admin"
      && (findOne (fun d => d.role == some "admin") store).isSome) = true) :
    signup M store userData = (store, ⟨400, .error "Admin user already exists"⟩) := by
  simp only [signup, h, if_true]

theorem signup_throws (M : Model) (store : Store) (userData : SignupBody)
    (h : (userData.role == some "admin"
      && (findOne (fun d => d.role == some "admin") store).isSome) = false)
    (ht : aadharRegexTest userData.aadharCardNumber = none) :
    signup M store userData = (store, ⟨500, .error "Internal Server Error"⟩) := by
  simp [signup, h, ht]

theorem signup_bad_format (M : Model) (store : Store) (userData : SignupBody)
    (h : (userData.role == some "admin"
      && (findOne (fun d => d.role == some "admin") store).isSome) = false)
    (ht : aadharRegexTest userData.aadharCardNumber = some false) :
    signup M store userData
      = (store, ⟨400, .error "Aadhar Card Number must be exactly 12 digits"⟩) := by
  simp [signup, h, ht]

theorem signup_cast_error (M : Model) (store : Store) (userData : SignupBody)
    (h : (userData.role == some "admin"
      && (findOne (fun d => d.role == some "admin") store).isSome) = false)
    (ht : aadharRegexTest userData.aadharCardNumber = some true)
    (hc : castAadhar M userData.aadharCardNumber = none) :
    signup M store userData = (store, ⟨500, .error "Internal Server Error"⟩) := by
  simp [signup, h, ht, hc]

theorem signup_duplicate (M : Model) (store : Store) (userData : SignupBody) (a : String)
    (h : (userData.role == some "admin"
      && (findOne (fun d => d.role == some "admin") store).isSome) = false)
    (ht : aadharRegexTest userData.aadharCardNumber = some true)
    (hc : castAadhar M userData.aadharCardNumber = some a)
    (hf : (findOne (fun d => d.aadharCardNumber == some a) store).isSome = true) :
    signup M store userData
      = (store, ⟨400, .error "User with the same Aadhar Card Number already exists"⟩) := by
  simp [signup, h, ht, hc, hf]

theorem signup_saves (M : Model) (store : Store) (userData : SignupBody) (a : String)
    (h : (userData.role == some "admin"
      && (findOne (fun d => d.role == some "admin") store).isSome) = false)
    (ht : aadharRegexTest userData.aadharCardNumber = some true)
    (hc : castAadhar M userData.aadharCardNumber = some a)
    (hf : (findOne (fun d => d.aadharCardNumber == some a) store).isSome = false) :
    signup M store userData
      = (store ++ [newUser M userData a],
          ⟨200, .userToken ⟨store.length, newUser M userData a⟩
            (M.generateToken ⟨store.length⟩)⟩) := by
  simp [signup, h, ht, hc, hf, saveNew]

/-- A signup whose aadharCardNumber is a string or absent, and not exactly 12 decimal
digits, is answered 400 and no user is added. -/
theorem signup_malformed_field_rejected (M : Model) (store : Store) (userData : SignupBody)
    (f : Option String) (hf : userData.aadharCardNumber = JsValue.ofField f)
    (h : ¬ WellFormedAadhar f) :
    (signup M store userData).2.status = 400 ∧ (signup M store userData).1 = store := by
  cases hg : (userData.role == some "admin"
      && (findOne (fun d => d.role == some "admin") store).isSome) with
  | true => rw [signup_admin_exists M store userData hg]; exact ⟨rfl, rfl⟩
  | false =>
    have ht : aadharRegexTest userData.aadharCardNumber = some false := by
      rw [hf]
      cases f with
      | none => decide
      | some s =>
        show aadharRegexTest (.str s) = some false
        rw [aadharRegexTest_str]
        cases hd : digitsThenEnd 12 s.toList with
        | false => rfl
        | true => exact absurd ⟨s, rfl, (digitsThenEnd_twelve_iff s).1 hd⟩ h
    rw [signup_bad_format M store userData hg ht]
    exact ⟨rfl, rfl⟩

/-- C1, at two bodies the handler can receive: neither aadharCardNumber is exactly 12
decimal digits, yet neither signup is answered 400.  For the object with an own
`toString` property the coercion of the format check throws and the answer is 500,
whatever the collection.  The one-element array passes the format check, and on the
empty collection the answer is 200 or 500. -/
theorem signup_malformed_aadhar_not_rejected (M : Model) (store : Store) :
    (¬ WellFormedAadharValue objectAadharBody.aadharCardNumber ∧
      signup M store objectAadharBody = (store, ⟨500, .error "Internal Server Error"⟩)) ∧
    (¬ WellFormedAadharValue arrayAadharBody.aadharCardNumber ∧
      aadharRegexTest arrayAadharBody.aadharCardNumber = some true ∧
      ((signup M [] arrayAadharBody).2.status = 200 ∨
        (signup M [] arrayAadharBody).2.status = 500)) := by
  refine ⟨⟨?_, ?_⟩, ?_, by decide, ?_⟩
  · rintro ⟨s, hs, _⟩
    cases hs
  · have hrole : (objectAadharBody.role == some "admin") = false := by decide
    exact signup_throws M store objectAadharBody (by rw [hrole, Bool.false_and]) (by decide)
  · rintro ⟨s, hs, _⟩
    cases hs
  · cases hc : castAadhar M arrayAadharBody.aadharCardNumber with
    | none =>
      rw [signup_cast_error M [] arrayAadharBody (by decide) (by decide) hc]
      exact Or.inr rfl
    | some a =>
      rw [signup_saves M [] arrayAadharBody a (by decide) (by decide) hc rfl]
      exact Or.inl rfl

/-- C2: when the collection already holds a user with role admin, a signup body with role
admin is answered with status 400 and the error `Admin user already exists`, and the
collection is left as it was. -/
theorem signup_second_admin_rejected (M : Model) (store : Store) (userData : SignupBody)
    (hadmin : ∃ d ∈ store, IsAdmin d) (hrole : userData.role = some "admin") :
    signup M store userData = (store, ⟨400, .error "Admin user already exists"⟩) := by
  have hfind : (findOne (fun d => d.role == some "admin") store).isSome = true := by
    rw [findOne_isSome_iff]
    obtain ⟨d, hd, hda⟩ := hadmin
    exact ⟨d, hd, by simpa [IsAdmin] using hda⟩
  exact signup_admin_exists M store userData (by simp [hrole, hfind])

theorem signup_second_admin_rejected_witness :
    (∃ d ∈ sampleStore, IsAdmin d) ∧
      signup demoModel sampleStore ⟨.str "777788889999", some "pw", some "admin", []⟩
        = (sampleStore, ⟨400, .error "Admin user already exists"⟩) :=
  ⟨⟨sampleAdmin, by simp [sampleStore], rfl⟩,
    signup_second_admin_rejected demoModel sampleStore
      ⟨.str "777788889999", some "pw", some "admin", []⟩
      ⟨sampleAdmin, by simp [sampleStore], rfl⟩ rfl⟩

/-- C3: a signup body whose aadharCardNumber equals that of a stored user is answered with
status 400 and the collection is left as it was, so no second record with that ID number
is created. -/
theorem signup_duplicate_aadhar_rejected (M : Model) (store : Store) (userData : SignupBody)
    (hdup : ∃ d ∈ store, JsValue.ofField d.aadharCardNumber = userData.aadharCardNumber) :
    (signup M store userData).2.status = 400 ∧ (signup M store userData).1 = store := by
  obtain ⟨d, hd, hda⟩ := hdup
  cases hg : (userData.role == some "admin"
      && (findOne (fun d => d.role == some "admin") store).isSome) with
  | true => rw [signup_admin_exists M store userData hg]; exact ⟨rfl, rfl⟩
  | false =>
    cases hf : d.aadharCardNumber with
    | none =>
      rw [hf] at hda
      have ht : aadharRegexTest userData.aadharCardNumber = some false := by
        rw [← hda]; decide
      rw [signup_bad_format M store userData hg ht]
      exact ⟨rfl, rfl⟩
    | some s =>
      rw [hf] at hda
      have hv : userData.aadharCardNumber = .str s := hda.symm
      cases hb : digitsThenEnd 12 s.toList with
      | false =>
        have ht : aadharRegexTest userData.aadharCardNumber = some false := by
          rw [hv, aadharRegexTest_str, hb]
        rw [signup_bad_format M store userData hg ht]
        exact ⟨rfl, rfl⟩
      | true =>
        have ht : aadharRegexTest userData.aadharCardNumber = some true := by
          rw [hv, aadharRegexTest_str, hb]
        have hc : castAadhar M userData.aadharCardNumber = some s := by rw [hv]; rfl
        have hfind : (findOne (fun d => d.aadharCardNumber == some s) store).isSome
            = true := by
          rw [findOne_isSome_iff]
          exact ⟨d, hd, by simpa using hf⟩
        rw [signup_duplicate M store userData s hg ht hc hfind]
        exact ⟨rfl, rfl⟩

theorem signup_duplicate_aadhar_rejected_witness :
    (∃ d ∈ sampleStore, JsValue.ofField d.aadharCardNumber = .str "444455556666") ∧
      (signup demoModel sampleStore ⟨.str "444455556666", some "pw", none, []⟩).2.status
        = 400 ∧
      (signup demoModel sampleStore ⟨.str "444455556666", some "pw", none, []⟩).1
        = sampleStore :=
  ⟨⟨sampleVoter, by simp [sampleStore], rfl⟩,
    signup_duplicate_aadhar_rejected demoModel sampleStore
      ⟨.str "444455556666", some "pw", none, []⟩ ⟨sampleVoter, by simp [sampleStore], rfl⟩⟩

/-- C4: a signup body that passes the three checks (it does not ask for role admin while an
admin is stored, its aadharCardNumber is exactly 12 digits, no stored user has that
aadharCardNumber) adds exactly one user built from the body (its fields, the password
hashed) at the end of the collection, leaves every user stored before unchanged, and is
answered with status 200 carrying the saved record and the token generated from the
payload holding the saved record's id. -/
theorem signup_accepts (M : Model) (store : Store) (userData : SignupBody)
    (hadmin : ¬ (userData.role = some "admin" ∧ ∃ d ∈ store, IsAdmin d))
    (hwf : WellFormedAadharValue userData.aadharCardNumber)
    (hnew : ∀ d ∈ store, JsValue.ofField d.aadharCardNumber ≠ userData.aadharCardNumber) :
    ∃ saved : User,
      (signup M store userData).1 = store ++ [saved.data] ∧
      (signup M store userData).2
        = ⟨200, .userToken saved (M.generateToken ⟨saved.id⟩)⟩ ∧
      findById (signup M store userData).1 saved.id = some saved ∧
      (∀ i : Nat, i < store.length → (signup M store userData).1[i]? = store[i]?) ∧
      (signup M store userData).1.length = store.length + 1 ∧
      JsValue.ofField saved.data.aadharCardNumber = userData.aadharCardNumber ∧
      saved.data.role = userData.role ∧
      saved.data.others = userData.others ∧
      saved.data.password = userData.password.map M.hash := by
  have h1 : (userData.role == some "admin"
      && (findOne (fun d => d.role == some "admin") store).isSome) = false := by
    rw [Bool.and_eq_false_iff]
    by_cases hr : userData.role = some "admin"
    · right
      rw [← Bool.not_eq_true, findOne_isSome_iff]
      rintro ⟨d, hd, hda⟩
      exact hadmin ⟨hr, d, hd, by simpa [IsAdmin] using hda⟩
    · left; simpa using hr
  obtain ⟨s, hv, h12⟩ := hwf
  have h2 : aadharRegexTest userData.aadharCardNumber = some true := by
    rw [hv]; exact aadharRegexTest_str_true s h12
  have hc : castAadhar M userData.aadharCardNumber = some s := by rw [hv]; rfl
  have h3 : (findOne (fun d => d.aadharCardNumber == some s) store).isSome = false := by
    rw [← Bool.not_eq_true, findOne_isSome_iff]
    rintro ⟨d, hd, hda⟩
    refine hnew d hd ?_
    have hds : d.aadharCardNumber = some s := by simpa using hda
    rw [hds, hv]
    rfl
  refine ⟨⟨store.length, newUser M userData s⟩, ?_⟩
  rw [signup_saves M store userData s h1 h2 hc h3]
  refine ⟨rfl, rfl, ?_, ?_, ?_, ?_, rfl, rfl, rfl⟩
  · simp [findById]
  · intro i hi
    exact List.getElem?_append_left hi
  · simp
  · rw [hv]; rfl

theorem signup_accepts_witness :
    (signup demoModel sampleStore ⟨.str "777788889999", some "pw", some "voter", []⟩).2.status
        = 200 ∧
      (signup demoModel sampleStore ⟨.str "777788889999", some "pw", some "voter", []⟩).1.length
        = 3 := by
  obtain ⟨saved, _, h2, _, _, h5, _⟩ :=
    signup_accepts demoModel sampleStore ⟨.str "777788889999", some "pw", some "voter", []⟩
      (by simp) (wellFormedValue_of_test _ (by decide))
      (by
        intro d hd
        simp only [sampleStore, List.mem_cons, List.mem_singleton, List.not_mem_nil,
          or_false] at hd
        rcases hd with rfl | rfl <;>
          exact fun h => absurd (JsValue.str.inj h) (by decide))
  exact ⟨by rw [h2], by rw [h5]; rfl⟩

/-! ## Login -/

theorem login_missing (M : Model) (store : Store) (body : LoginBody)
    (h : MissingOrEmpty body.aadharCardNumber ∨ MissingOrEmpty body.password) :
    login M store body
      = (store, ⟨400, .error "Aadhar Card Number and password are required"⟩) := by
  have h' : (!truthy body.aadharCardNumber || !truthy body.password) = true := by
    rcases h with h | h
    · simp [(truthy_eq_false_iff _).2 h]
    · simp [(truthy_eq_false_iff _).2 h]
  simp [login, h']

theorem login_unknown (M : Model) (store : Store) (a p : String) (ha : a ≠ "") (hp : p ≠ "")
    (hunknown : ∀ d ∈ store, d.aadharCardNumber ≠ some a) :
    login M store ⟨some a, some p⟩
      = (store, ⟨401, .error "Invalid Aadhar Card Number or Password"⟩) := by
  have hf : findOne (fun d => d.aadharCardNumber == some a) store = none := by
    rw [findOne, findOneFrom_eq_none_iff]
    intro d hd
    simpa using hunknown d hd
  simp [login, truthy, ha, hp, hf]

theorem login_wrong_password (M : Model) (store : Store) (a p : String)
    (ha : a ≠ "") (hp : p ≠ "")
    (hwrong : ∀ d ∈ store, d.aadharCardNumber = some a → ¬ PasswordMatches M d p) :
    login M store ⟨some a, some p⟩
      = (store, ⟨401, .error "Invalid Aadhar Card Number or Password"⟩) := by
  cases hf : findOne (fun d => d.aadharCardNumber == some a) store with
  | none => simp [login, truthy, ha, hp, hf]
  | some u =>
    obtain ⟨k, _, hk, hqu, _⟩ := findOneFrom_eq_some _ store 0 u hf
    have hno : comparePassword M u p = false := by
      rw [← Bool.not_eq_true, comparePassword_iff]
      exact hwrong u.data (List.getElem?_mem hk) (by simpa using hqu)
    simp [login, truthy, ha, hp, hf, hno]

theorem login_found (M : Model) (store : Store) (a p : String) (i : Nat) (d : UserData)
    (ha : a ≠ "") (hp : p ≠ "")
    (hi : store[i]? = some d) (hd : d.aadharCardNumber = some a)
    (huniq : ∀ (j : Nat) (e : UserData),
      store[j]? = some e → e.aadharCardNumber = some a → j = i) :
    login M store ⟨some a, some p⟩
      = if comparePassword M ⟨i, d⟩ p then
          (store, ⟨200, .token (M.generateToken ⟨i⟩)⟩)
        else (store, ⟨401, .error "Invalid Aadhar Card Number or Password"⟩) := by
  have hf : findOne (fun d => d.aadharCardNumber == some a) store = some ⟨i, d⟩ :=
    findOne_of_unique _ store i d hi (by simpa using hd)
      (fun j e hj he => huniq j e hj (by simpa using he))
  by_cases hc : comparePassword M ⟨i, d⟩ p = true <;>
    simp [login, truthy, ha, hp, hf, hc]

/-- C5: two login requests with non-empty aadharCardNumber and password, one naming an ID
number that no stored user has, the other naming a stored ID number with a password that
does not match, receive the same response: status 401 with the error
`Invalid Aadhar Card Number or Password`. -/
theorem login_rejections_indistinguishable (M : Model) (store : Store)
    (a₁ p₁ a₂ p₂ : String)
    (ha₁ : a₁ ≠ "") (hp₁ : p₁ ≠ "") (ha₂ : a₂ ≠ "") (hp₂ : p₂ ≠ "")
    (hunknown : ∀ d ∈ store, d.aadharCardNumber ≠ some a₁)
    (_hknown : ∃ d ∈ store, d.aadharCardNumber = some a₂)
    (hwrong : ∀ d ∈ store, d.aadharCardNumber = some a₂ → ¬ PasswordMatches M d p₂) :
    (login M store ⟨some a₁, some p₁⟩).2 = (login M store ⟨some a₂, some p₂⟩).2 ∧
      (login M store ⟨some a₁, some p₁⟩).2
        = ⟨401, .error "Invalid Aadhar Card Number or Password"⟩ := by
  rw [login_unknown M store a₁ p₁ ha₁ hp₁ hunknown,
    login_wrong_password M store a₂ p₂ ha₂ hp₂ hwrong]
  exact ⟨rfl, rfl⟩

theorem demoModel_not_matches (d : UserData) (p stored : String)
    (hd : d.password = some stored) (hne : (stored == "#" ++ p) = false) :
    ¬ PasswordMatches demoModel d p := by
  rintro ⟨s, hs, hc⟩
  rw [hd] at hs
  cases hs
  simp only [demoModel] at hc
  rw [hne] at hc
  cases hc

theorem login_rejections_indistinguishable_witness :
    (login demoModel sampleStore ⟨some "999999999999", some "voter-pw"⟩).2
        = (login demoModel sampleStore ⟨some "444455556666", some "guess"⟩).2 ∧
      (login demoModel sampleStore ⟨some "999999999999", some "voter-pw"⟩).2
        = ⟨401, .error "Invalid Aadhar Card Number or Password"⟩ :=
  login_rejections_indistinguishable demoModel sampleStore
    "999999999999" "voter-pw" "444455556666" "guess"
    (by decide) (by decide) (by decide) (by decide)
    (by simp [sampleStore, sampleAdmin, sampleVoter])
    ⟨sampleVoter, by simp [sampleStore], rfl⟩
    (by
      intro d hd ha
      simp only [sampleStore, List.mem_cons, List.mem_singleton, List.not_mem_nil,
        or_false] at hd
      rcases hd with rfl | rfl
      · exact absurd ha (by decide)
      · exact demoModel_not_matches _ "guess" "#voter-pw" rfl (by decide))

/-- Counterexample to C6 as stated: the collection contains a user with ID number
`444455556666` whose stored password matches `second-pw`, both non-empty, yet the login
is answered 401, because the lookup returns the older user with that ID number. -/
theorem login_duplicate_aadhar_counterexample :
    (∃ d ∈ duplicateStore,
        d.aadharCardNumber = some "444455556666" ∧ PasswordMatches demoModel d "second-pw") ∧
      (login demoModel duplicateStore ⟨some "444455556666", some "second-pw"⟩).2
        = ⟨401, .error "Invalid Aadhar Card Number or Password"⟩ :=
  ⟨⟨⟨some "444455556666", some "#second-pw", some "voter", []⟩, by simp [duplicateStore], rfl,
      "#second-pw", rfl, by decide⟩,
    by decide⟩

/-- C6, amended: when the collection holds a user with ID number `a` whose stored password
matches `p` under comparePassword, `a` and `p` are non-empty and no other stored user has
ID number `a`, the login with `a` and `p` is answered 200 with the token generated from
the payload holding that user's id, and the collection is unchanged; when
aadharCardNumber or password is missing or empty, the login is answered 400 with one and
the same response for every collection, which it leaves unchanged. -/
theorem login_accepts (M : Model) :
    (∀ (store : Store) (a p : String) (i : Nat) (d : UserData),
        a ≠ "" → p ≠ "" →
        store[i]? = some d → d.aadharCardNumber = some a → PasswordMatches M d p →
        (∀ (j : Nat) (e : UserData),
          store[j]? = some e → e.aadharCardNumber = some a → j = i) →
        login M store ⟨some a, some p⟩ = (store, ⟨200, .token (M.generateToken ⟨i⟩)⟩)) ∧
      (∀ (store : Store) (body : LoginBody),
        MissingOrEmpty body.aadharCardNumber ∨ MissingOrEmpty body.password →
        login M store body
          = (store, ⟨400, .error "Aadhar Card Number and password are required"⟩)) := by
  refine ⟨?_, fun store body h => login_missing M store body h⟩
  intro store a p i d ha hp hi hd hm huniq
  rw [login_found M store a p i d ha hp hi hd huniq,
    if_pos ((comparePassword_iff M ⟨i, d⟩ p).2 hm)]

theorem login_accepts_witness :
    login demoModel sampleStore ⟨some "444455556666", some "voter-pw"⟩
        = (sampleStore, ⟨200, .token (demoModel.generateToken ⟨1⟩)⟩) ∧
      login demoModel sampleStore ⟨some "444455556666", none⟩
        = (sampleStore, ⟨400, .error "Aadhar Card Number and password are required"⟩) :=
  ⟨(login_accepts demoModel).1 sampleStore "444455556666" "voter-pw" 1 sampleVoter
      (by decide) (by decide) rfl rfl ⟨"#voter-pw", rfl, by decide⟩
      (by
        intro j e hj he
        match j, hj with
        | 0, hj =>
          simp only [sampleStore, List.getElem?_cons_zero, Option.some.injEq] at hj
          subst hj
          exact absurd he (by decide)
        | 1, _ => rfl
        | j + 2, hj => simp [sampleStore] at hj),
    (login_accepts demoModel).2 sampleStore ⟨some "444455556666", none⟩ (Or.inr (Or.inl rfl))⟩

/-! ## Password change -/

theorem profilePassword_missing (M : Model) (store : Store) (userId : Nat) (body : PasswordBody)
    (h : MissingOrEmpty body.currentPassword ∨ MissingOrEmpty body.newPassword) :
    profilePassword M store userId body
      = (store, ⟨400, .error "Both currentPassword and newPassword are required"⟩) := by
  have h' : (!truthy body.currentPassword || !truthy body.newPassword) = true := by
    rcases h with h | h
    · simp [(truthy_eq_false_iff _).2 h]
    · simp [(truthy_eq_false_iff _).2 h]
  simp [profilePassword, h']

theorem profilePassword_invalid (M : Model) (store : Store) (userId : Nat) (cur new : String)
    (hcur : cur ≠ "") (hnew : new ≠ "")
    (h : store[userId]? = none ∨
      ∃ d, store[userId]? = some d ∧ ¬ PasswordMatches M d cur) :
    profilePassword M store userId ⟨some cur, some new⟩
      = (store, ⟨401, .error "Invalid current password"⟩) := by
  rcases h with h | ⟨d, hd, hm⟩
  · simp [profilePassword, truthy, hcur, hnew, findById, h]
  · have hno : comparePassword M ⟨userId, d⟩ cur = false := by
      rw [← Bool.not_eq_true, comparePassword_iff]; exact hm
    simp [profilePassword, truthy, hcur, hnew, findById, hd, hno]

theorem profilePassword_ok (M : Model) (store : Store) (userId : Nat) (cur new : String)
    (d : UserData) (hcur : cur ≠ "") (hnew : new ≠ "")
    (hd : store[userId]? = some d) (hm : PasswordMatches M d cur) :
    profilePassword M store userId ⟨some cur, some new⟩
      = (store.set userId { d with password := some (M.hash new) },
          ⟨200, .message "Password updated"⟩) := by
  have hyes : comparePassword M ⟨userId, d⟩ cur = true := (comparePassword_iff M _ cur).2 hm
  simp [profilePassword, truthy, hcur, hnew, findById, hd, hyes, savePassword]

/-- A password change answered 200 was made with a non-empty current password that
matches, and rewrote the password of the authenticated user only. -/
theorem profilePassword_of_ok (M : Model) (store : Store) (userId : Nat) (cur new : String)
    (d : UserData) (hd : store[userId]? = some d)
    (hok : (profilePassword M store userId ⟨some cur, some new⟩).2.status = 200) :
    cur ≠ "" ∧ new ≠ "" ∧
      (profilePassword M store userId ⟨some cur, some new⟩).1
        = store.set userId { d with password := some (M.hash new) } := by
  by_cases hcur : cur = ""
  · rw [profilePassword_missing M store userId _ (Or.inl (Or.inr (by rw [hcur])))] at hok
    simp at hok
  by_cases hnew : new = ""
  · rw [profilePassword_missing M store userId _ (Or.inr (Or.inr (by rw [hnew])))] at hok
    simp at hok
  by_cases hm : PasswordMatches M d cur
  · exact ⟨hcur, hnew, by rw [profilePassword_ok M store userId cur new d hcur hnew hd hm]⟩
  · rw [profilePassword_invalid M store userId cur new hcur hnew (Or.inr ⟨d, hd, hm⟩)] at hok
    simp at hok

theorem demoModel_compare_hash (x y : String) :
    demoModel.compare y (demoModel.hash x) = true ↔ y = x := by
  simp only [demoModel, beq_iff_eq]
  constructor
  · intro h
    have hdata := congrArg String.data h
    simp only [String.data_append] at hdata
    exact (String.ext (List.append_cancel_left hdata)).symm
  · rintro rfl; rfl

/-- Counterexample to C7 as stated, under a model layer whose comparePassword succeeds
exactly on the plaintext that was hashed.  First, in `duplicateStore` the user with id 1
has ID number `444455556666` and current password `second-pw`; the change to `new-pw` is
answered 200, yet the login with `444455556666` and `new-pw` is answered 401, because the
lookup returns the older user with that ID number.  Second, in `emptyAadharStore` the
user with id 0 has the empty ID number; the change is answered 200, yet the login with the
empty ID number is answered 400. -/
theorem password_change_login_counterexample :
    (∀ x y : String, demoModel.compare y (demoModel.hash x) = true ↔ y = x) ∧
      ((profilePassword demoModel duplicateStore 1 ⟨some "second-pw", some "new-pw"⟩).2.status
          = 200 ∧
        (login demoModel
            (profilePassword demoModel duplicateStore 1 ⟨some "second-pw", some "new-pw"⟩).1
            ⟨some "444455556666", some "new-pw"⟩).2.status = 401) ∧
      ((profilePassword demoModel emptyAadharStore 0 ⟨some "old-pw", some "new-pw"⟩).2.status
          = 200 ∧
        (login demoModel
            (profilePassword demoModel emptyAadharStore 0 ⟨some "old-pw", some "new-pw"⟩).1
            ⟨some "", some "new-pw"⟩).2.status = 400) :=
  ⟨demoModel_compare_hash, ⟨by decide, by decide⟩, ⟨by decide, by decide⟩⟩

/-- C7, amended: assume comparePassword succeeds on a stored password exactly when given
the plaintext it was hashed from.  For a stored user with a non-empty ID number `a` that
no other stored user has, and a non-empty new password `q`: after a password change from
`p` to `q` authenticated as that user is answered 200, the login with `a` and `q` is
answered 200 with the token for that user, and the login with `a` and `p` is answered 401
whenever `p` differs from `q`. -/
theorem password_change_then_login (M : Model) (store : Store) (i : Nat) (d : UserData)
    (a p q : String)
    (hmodel : ∀ x y : String, M.compare y (M.hash x) = true ↔ y = x)
    (hi : store[i]? = some d) (hd : d.aadharCardNumber = some a) (ha : a ≠ "")
    (huniq : ∀ (j : Nat) (e : UserData),
      store[j]? = some e → e.aadharCardNumber = some a → j = i)
    (_hq : q ≠ "")
    (hok : (profilePassword M store i ⟨some p, some q⟩).2.status = 200) :
    login M (profilePassword M store i ⟨some p, some q⟩).1 ⟨some a, some q⟩
        = ((profilePassword M store i ⟨some p, some q⟩).1,
            ⟨200, .token (M.generateToken ⟨i⟩)⟩) ∧
      (p ≠ q →
        login M (profilePassword M store i ⟨some p, some q⟩).1 ⟨some a, some p⟩
          = ((profilePassword M store i ⟨some p, some q⟩).1,
              ⟨401, .error "Invalid Aadhar Card Number or Password"⟩)) := by
  obtain ⟨hp, hq, hstore⟩ := profilePassword_of_ok M store i p q d hi hok
  rw [hstore]
  have hlt : i < store.length := by
    obtain ⟨h, _⟩ := List.getElem?_eq_some.1 hi
    exact h
  have hi' : (store.set i { d with password := some (M.hash q) })[i]?
      = some { d with password := some (M.hash q) } := by
    rw [List.getElem?_set, if_pos rfl, if_pos hlt]
  have huniq' : ∀ (j : Nat) (e : UserData),
      (store.set i { d with password := some (M.hash q) })[j]? = some e →
        e.aadharCardNumber = some a → j = i := by
    intro j e hj he
    by_cases hji : j = i
    · exact hji
    · rw [List.getElem?_set_ne (fun h => hji h.symm)] at hj
      exact huniq j e hj he
  have hcmp : ∀ y : String,
      comparePassword M ⟨i, { d with password := some (M.hash q) }⟩ y = true ↔ y = q := by
    intro y
    simp only [comparePassword]
    exact hmodel q y
  constructor
  · rw [login_found M _ a q i _ ha hq hi' hd huniq', if_pos ((hcmp q).2 rfl)]
  · intro hpq
    rw [login_found M _ a p i _ ha hp hi' hd huniq', if_neg (fun h => hpq ((hcmp p).1 h))]

theorem password_change_then_login_witness :
    (profilePassword demoModel sampleStore 1 ⟨some "voter-pw", some "new-pw"⟩).2.status = 200 ∧
      login demoModel
          (profilePassword demoModel sampleStore 1 ⟨some "voter-pw", some "new-pw"⟩).1
          ⟨some "444455556666", some "new-pw"⟩
        = ((profilePassword demoModel sampleStore 1 ⟨some "voter-pw", some "new-pw"⟩).1,
            ⟨200, .token (demoModel.generateToken ⟨1⟩)⟩) ∧
      ("voter-pw" ≠ "new-pw" →
        login demoModel
            (profilePassword demoModel sampleStore 1 ⟨some "voter-pw", some "new-pw"⟩).1
            ⟨some "444455556666", some "voter-pw"⟩
          = ((profilePassword demoModel sampleStore 1 ⟨some "voter-pw", some "new-pw"⟩).1,
              ⟨401, .error "Invalid Aadhar Card Number or Password"⟩)) :=
  ⟨by decide,
    password_change_then_login demoModel sampleStore 1 sampleVoter
      "444455556666" "voter-pw" "new-pw" demoModel_compare_hash rfl rfl (by decide)
      (by
        intro j e hj he
        match j, hj with
        | 0, hj =>
          simp only [sampleStore, List.getElem?_cons_zero, Option.some.injEq] at hj
          subst hj
          exact absurd he (by decide)
        | 1, _ => rfl
        | j + 2, hj => simp [sampleStore] at hj)
      (by decide) (by decide)⟩

/-- C10: for an authenticated password change, (1) a missing or empty currentPassword or
newPassword is answered 400; (2) otherwise, when the authenticated user is not stored or
currentPassword does not match the stored password, the answer is 401 with
`Invalid current password`; in both rejections the collection is unchanged; (3) otherwise
the answer is 200, the collection keeps its length, every other user is unchanged, and the
authenticated user keeps ID number, role and other fields while the stored password
becomes the hash of newPassword. -/
theorem profilePassword_frame (M : Model) (store : Store) (userId : Nat) :
    (∀ body : PasswordBody,
        MissingOrEmpty body.currentPassword ∨ MissingOrEmpty body.newPassword →
        profilePassword M store userId body
          = (store, ⟨400, .error "Both currentPassword and newPassword are required"⟩)) ∧
      (∀ cur new : String, cur ≠ "" → new ≠ "" →
        (store[userId]? = none ∨ ∃ d, store[userId]? = some d ∧ ¬ PasswordMatches M d cur) →
        profilePassword M store userId ⟨some cur, some new⟩
          = (store, ⟨401, .error "Invalid current password"⟩)) ∧
      (∀ (cur new : String) (d : UserData), cur ≠ "" → new ≠ "" →
        store[userId]? = some d → PasswordMatches M d cur →
        (profilePassword M store userId ⟨some cur, some new⟩).2
            = ⟨200, .message "Password updated"⟩ ∧
          (profilePassword M store userId ⟨some cur, some new⟩).1.length = store.length ∧
          (∀ j : Nat, j ≠ userId →
            (profilePassword M store userId ⟨some cur, some new⟩).1[j]? = store[j]?) ∧
          ∃ d', (profilePassword M store userId ⟨some cur, some new⟩).1[userId]? = some d' ∧
            d'.aadharCardNumber = d.aadharCardNumber ∧ d'.role = d.role ∧
            d'.others = d.others ∧ d'.password = some (M.hash new)) := by
  refine ⟨fun body h => profilePassword_missing M store userId body h,
    fun cur new hcur hnew h => profilePassword_invalid M store userId cur new hcur hnew h, ?_⟩
  intro cur new d hcur hnew hd hm
  rw [profilePassword_ok M store userId cur new d hcur hnew hd hm]
  have hlt : userId < store.length := by
    obtain ⟨h, _⟩ := List.getElem?_eq_some.1 hd
    exact h
  refine ⟨rfl, by simp, ?_, ⟨{ d with password := some (M.hash new) }, ?_, rfl, rfl, rfl, rfl⟩⟩
  · intro j hj
    exact List.getElem?_set_ne (fun h => hj h.symm)
  · show (store.set userId { d with password := some (M.hash new) })[userId]? = _
    rw [List.getElem?_set, if_pos rfl, if_pos hlt]

theorem profilePassword_frame_witness :
    profilePassword demoModel sampleStore 1 ⟨some "voter-pw", none⟩
        = (sampleStore, ⟨400, .error "Both currentPassword and newPassword are required"⟩) ∧
      profilePassword demoModel sampleStore 1 ⟨some "guess", some "new-pw"⟩
        = (sampleStore, ⟨401, .error "Invalid current password"⟩) ∧
      (profilePassword demoModel sampleStore 1 ⟨some "voter-pw", some "new-pw"⟩).1[0]?
        = sampleStore[0]? :=
  ⟨(profilePassword_frame demoModel sampleStore 1).1 ⟨some "voter-pw", none⟩
      (Or.inr (Or.inl rfl)),
    (profilePassword_frame demoModel sampleStore 1).2.1 "guess" "new-pw" (by decide) (by decide)
      (Or.inr ⟨sampleVoter, rfl,
        demoModel_not_matches sampleVoter "guess" "#voter-pw" rfl (by decide)⟩),
    ((profilePassword_frame demoModel sampleStore 1).2.2 "voter-pw" "new-pw" sampleVoter
      (by decide) (by decide) rfl ⟨"#voter-pw", rfl, by decide⟩).2.2.1 0 (by decide)⟩

/-! ## Invariants of the collection -/

theorem signup_store (M : Model) (store : Store) (userData : SignupBody) :
    (signup M store userData).1 = store ∨
      ∃ a : String, (signup M store userData).1 = store ++ [newUser M userData a] ∧
        ¬ (userData.role = some "admin" ∧ ∃ d ∈ store, IsAdmin d) ∧
        WellFormedAadhar (some a) ∧
        ∀ d ∈ store, d.aadharCardNumber ≠ some a := by
  cases hg : (userData.role == some "admin"
      && (findOne (fun d => d.role == some "admin") store).isSome) with
  | true => rw [signup_admin_exists M store userData hg]; exact Or.inl rfl
  | false =>
    cases ht : aadharRegexTest userData.aadharCardNumber with
    | none => rw [signup_throws M store userData hg ht]; exact Or.inl rfl
    | some b =>
      cases b with
      | false => rw [signup_bad_format M store userData hg ht]; exact Or.inl rfl
      | true =>
        cases hc : castAadhar M userData.aadharCardNumber with
        | none => rw [signup_cast_error M store userData hg ht hc]; exact Or.inl rfl
        | some a =>
          cases hf : (findOne (fun d => d.aadharCardNumber == some a) store).isSome with
          | true => rw [signup_duplicate M store userData a hg ht hc hf]; exact Or.inl rfl
          | false =>
            rw [signup_saves M store userData a hg ht hc hf]
            refine Or.inr ⟨a, rfl, ?_, ?_, ?_⟩
            · rintro ⟨hr, d, hd, hda⟩
              have hfind : (findOne (fun d => d.role == some "admin") store).isSome = true :=
                (findOne_isSome_iff _ store).2 ⟨d, hd, by simpa [IsAdmin] using hda⟩
              simp [hr, hfind] at hg
            · obtain ⟨t, htv, h12⟩ := aadharRegexTest_true _ ht
              rw [castAadhar_eq M _ a hc] at htv
              cases htv
              exact ⟨a, rfl, h12⟩
            · intro d hd hda
              have hfind : (findOne (fun d => d.aadharCardNumber == some a) store).isSome
                  = true :=
                (findOne_isSome_iff _ store).2 ⟨d, hd, by simpa using hda⟩
              rw [hfind] at hf
              cases hf

theorem login_store (M : Model) (store : Store) (body : LoginBody) :
    (login M store body).1 = store := by
  unfold login
  split
  · rfl
  · split
    · rfl
    · split <;> rfl

theorem profilePassword_store (M : Model) (store : Store) (userId : Nat) (body : PasswordBody) :
    (profilePassword M store userId body).1 = store ∨
      ∃ (d : UserData) (pw : Option String), store[userId]? = some d ∧
        (profilePassword M store userId body).1 = store.set userId { d with password := pw } := by
  unfold profilePassword
  split
  · exact Or.inl rfl
  · cases hf : store[userId]? with
    | none => simp [findById, hf]
    | some d =>
      simp only [findById, hf, Option.map_some']
      split
      · exact Or.inl rfl
      · exact Or.inr ⟨d, _, rfl, rfl⟩

theorem getElem?_append_singleton {α : Type} (l : List α) (x d : α) (i : Nat)
    (h : (l ++ [x])[i]? = some d) : l[i]? = some d ∨ (i = l.length ∧ d = x) := by
  rw [List.getElem?_append] at h
  split at h
  · exact Or.inl h
  · rename_i hlt
    right
    cases hk : i - l.length with
    | zero =>
      rw [hk] at h
      simp only [List.getElem?_cons_zero, Option.some.injEq] at h
      exact ⟨by omega, h.symm⟩
    | succ k =>
      rw [hk] at h
      simp at h

theorem getElem?_set_password (store : Store) (i j : Nat) (d e' : UserData)
    (pw : Option String) (hd : store[i]? = some d)
    (h : (store.set i { d with password := pw })[j]? = some e') :
    ∃ e, store[j]? = some e ∧ e'.role = e.role ∧
      e'.aadharCardNumber = e.aadharCardNumber := by
  by_cases hij : i = j
  · subst hij
    rw [List.getElem?_set, if_pos rfl] at h
    split at h
    · cases h
      exact ⟨d, hd, rfl, rfl⟩
    · cases h
  · rw [List.getElem?_set_ne hij] at h
    exact ⟨e', h, rfl, rfl⟩

theorem atMostOneAdmin_append (store : Store) (x : UserData) (h : AtMostOneAdmin store)
    (hx : IsAdmin x → ∀ d ∈ store, ¬ IsAdmin d) : AtMostOneAdmin (store ++ [x]) := by
  intro i j d e hi hj hd he
  rcases getElem?_append_singleton store x d i hi with hi' | ⟨hi', hdx⟩ <;>
    rcases getElem?_append_singleton store x e j hj with hj' | ⟨hj', hex⟩
  · exact h i j d e hi' hj' hd he
  · exact absurd hd (hx (hex ▸ he) d (List.getElem?_mem hi'))
  · exact absurd he (hx (hdx ▸ hd) e (List.getElem?_mem hj'))
  · rw [hi', hj']

theorem atMostOneAdmin_set (store : Store) (i : Nat) (d : UserData) (pw : Option String)
    (hd : store[i]? = some d) (h : AtMostOneAdmin store) :
    AtMostOneAdmin (store.set i { d with password := pw }) := by
  intro j k a b hj hk ha hb
  obtain ⟨a', hja, hra, _⟩ := getElem?_set_password store i j d a pw hd hj
  obtain ⟨b', hkb, hrb, _⟩ := getElem?_set_password store i k d b pw hd hk
  exact h j k a' b' hja hkb (by rw [IsAdmin, ← hra]; exact ha) (by rw [IsAdmin, ← hrb]; exact hb)

theorem uniqueAadhar_append (store : Store) (x : UserData) (h : UniqueAadhar store)
    (hx : ∀ d ∈ store, d.aadharCardNumber ≠ x.aadharCardNumber) :
    UniqueAadhar (store ++ [x]) := by
  intro i j d e hi hj hde
  rcases getElem?_append_singleton store x d i hi with hi' | ⟨hi', hdx⟩ <;>
    rcases getElem?_append_singleton store x e j hj with hj' | ⟨hj', hex⟩
  · exact h i j d e hi' hj' hde
  · exact absurd (hex ▸ hde) (hx d (List.getElem?_mem hi'))
  · exact absurd (hdx ▸ hde.symm) (hx e (List.getElem?_mem hj'))
  · rw [hi', hj']

theorem uniqueAadhar_set (store : Store) (i : Nat) (d : UserData) (pw : Option String)
    (hd : store[i]? = some d) (h : UniqueAadhar store) :
    UniqueAadhar (store.set i { d with password := pw }) := by
  intro j k a b hj hk hab
  obtain ⟨a', hja, _, haa⟩ := getElem?_set_password store i j d a pw hd hj
  obtain ⟨b', hkb, _, hbb⟩ := getElem?_set_password store i k d b pw hd hk
  exact h j k a' b' hja hkb (by rw [← haa, ← hbb]; exact hab)

theorem allWellFormed_append (store : Store) (x : UserData) (h : AllWellFormed store)
    (hx : WellFormedAadhar x.aadharCardNumber) : AllWellFormed (store ++ [x]) := by
  intro d hd
  rcases List.mem_append.1 hd with hd | hd
  · exact h d hd
  · rw [List.mem_singleton.1 hd]; exact hx

theorem allWellFormed_set (store : Store) (i : Nat) (d : UserData) (pw : Option String)
    (hd : store[i]? = some d) (h : AllWellFormed store) :
    AllWellFormed (store.set i { d with password := pw }) := by
  intro e he
  obtain ⟨j, hj⟩ := List.mem_iff_getElem?.1 he
  obtain ⟨e', hje, _, hee⟩ := getElem?_set_password store i j d e pw hd hj
  rw [hee]
  exact h e' (List.getElem?_mem hje)

theorem handle_atMostOneAdmin (M : Model) (store : Store) (r : Request)
    (h : AtMostOneAdmin store) : AtMostOneAdmin (handle M store r).1 := by
  cases r with
  | signup userData =>
    rcases signup_store M store userData with hs | ⟨a, hs, hadmin, _, _⟩
    · rw [handle, hs]; exact h
    · rw [handle, hs]
      refine atMostOneAdmin_append store _ h ?_
      intro hx d hd hda
      exact hadmin ⟨hx, d, hd, hda⟩
  | login body => rw [handle, login_store]; exact h
  | profile userId => exact h
  | profilePassword userId body =>
    rcases profilePassword_store M store userId body with hs | ⟨d, pw, hd, hs⟩
    · rw [handle, hs]; exact h
    · rw [handle, hs]; exact atMostOneAdmin_set store userId d pw hd h

theorem handle_aadhar (M : Model) (store : Store) (r : Request)
    (h : UniqueAadhar store ∧ AllWellFormed store) :
    UniqueAadhar (handle M store r).1 ∧ AllWellFormed (handle M store r).1 := by
  cases r with
  | signup userData =>
    rcases signup_store M store userData with hs | ⟨a, hs, _, hwf, hnew⟩
    · rw [handle, hs]; exact h
    · rw [handle, hs]
      exact ⟨uniqueAadhar_append store _ h.1 hnew, allWellFormed_append store _ h.2 hwf⟩
  | login body => rw [handle, login_store]; exact h
  | profile userId => exact h
  | profilePassword userId body =>
    rcases profilePassword_store M store userId body with hs | ⟨d, pw, hd, hs⟩
    · rw [handle, hs]; exact h
    · rw [handle, hs]
      exact ⟨uniqueAadhar_set store userId d pw hd h.1, allWellFormed_set store userId d pw hd h.2⟩

theorem atMostOneAdmin_nil : AtMostOneAdmin [] := by
  intro i j d e hi
  simp at hi

theorem uniqueAadhar_nil : UniqueAadhar [] := by
  intro i j d e hi
  simp at hi

theorem allWellFormed_nil : AllWellFormed [] := by
  intro d hd
  simp at hd

/-- C8: starting from a collection with at most one user of role admin, after any finite
sequence of signup, login, profile and password-change requests served one after the
other the collection still holds at most one user of role admin. -/
theorem serve_atMostOneAdmin (M : Model) (store : Store) (requests : List Request)
    (h : AtMostOneAdmin store) : AtMostOneAdmin (serve M store requests) := by
  induction requests generalizing store with
  | nil => exact h
  | cons r rs ih => exact ih (handle M store r).1 (handle_atMostOneAdmin M store r h)

/-- C9: starting from a collection in which no two users share an aadharCardNumber and
every stored aadharCardNumber is exactly 12 digits, after any finite sequence of signup,
login, profile and password-change requests served one after the other both properties
still hold. -/
theorem serve_aadhar_invariant (M : Model) (store : Store) (requests : List Request)
    (hunique : UniqueAadhar store) (hwf : AllWellFormed store) :
    UniqueAadhar (serve M store requests) ∧ AllWellFormed (serve M store requests) := by
  induction requests generalizing store with
  | nil => exact ⟨hunique, hwf⟩
  | cons r rs ih =>
    have hstep := handle_aadhar M store r ⟨hunique, hwf⟩
    exact ih (handle M store r).1 hstep.1 hstep.2

theorem serve_atMostOneAdmin_witness :
    AtMostOneAdmin [] ∧ AtMostOneAdmin (serve demoModel [] sampleRequests) :=
  ⟨atMostOneAdmin_nil, serve_atMostOneAdmin demoModel [] sampleRequests atMostOneAdmin_nil⟩

theorem serve_aadhar_invariant_witness :
    (UniqueAadhar [] ∧ AllWellFormed []) ∧
      UniqueAadhar (serve demoModel [] sampleRequests) ∧
      AllWellFormed (serve demoModel [] sampleRequests) :=
  ⟨⟨uniqueAadhar_nil, allWellFormed_nil⟩,
    serve_aadhar_invariant demoModel [] sampleRequests uniqueAadhar_nil allWellFormed_nil⟩

end VotingBackend
